import Mathlib

/-
Verification of the crashapp dashboard client (frontend/dashboard_script.js,
frontend/webapp_script.js).  The JavaScript source is shallowly embedded:
DOM state is modelled as explicit values, the browser collaborators
(JSON.parse, fetch, the Capacitor Geolocation plugin, setTimeout) are
modelled as explicit inputs/oracles, and each handler becomes a pure
state-passing function.
-/

set_option maxRecDepth 8000

namespace CrashApp

/-- JSON values as produced by the JSON.parse builtin.  Numbers keep their
source lexeme: no claim in this development depends on numeric semantics, and
the scripts only ever forward numeric values into strings. -/
inductive Json where
  | null
  | bool (b : Bool)
  | num (lexeme : String)
  | str (s : String)
  | arr (elems : List Json)
  | obj (fields : List (String × Json))

/-- Whitespace skipping used by the JSON.parse model. -/
def skipWs : List Char → List Char
  | [] => []
  | c :: cs => if c = ' ' ∨ c = '\n' ∨ c = '\t' ∨ c = '\r' then skipWs cs else c :: cs

/-- Value of a hexadecimal digit, for \u escapes. -/
def hexVal (c : Char) : Option Nat :=
  if '0' ≤ c ∧ c ≤ '9' then some (c.toNat - '0'.toNat)
  else if 'a' ≤ c ∧ c ≤ 'f' then some (c.toNat - 'a'.toNat + 10)
  else if 'A' ≤ c ∧ c ≤ 'F' then some (c.toNat - 'A'.toNat + 10)
  else none

/-- Single-character JSON string escapes. -/
def escChar (e : Char) : Option Char :=
  if e = '"' then some '"'
  else if e = '\\' then some '\\'
  else if e = '/' then some '/'
  else if e = 'n' then some '\n'
  else if e = 't' then some '\t'
  else if e = 'r' then some '\r'
  else if e = 'b' then some (Char.ofNat 8)
  else if e = 'f' then some (Char.ofNat 12)
  else none

/-- Body of a JSON string, after the opening quote.  Fueled to keep the
recursion structural (the \u case consumes several characters at once). -/
def parseStringBody : Nat → List Char → List Char → Option (String × List Char)
  | 0, _, _ => none
  | _ + 1, [], _ => none
  | fuel + 1, c :: rest, acc =>
    if c = '"' then some (String.mk acc.reverse, rest)
    else if c = '\\' then
      match rest with
      | [] => none
      | 'u' :: h1 :: h2 :: h3 :: h4 :: rest2 =>
        match hexVal h1, hexVal h2, hexVal h3, hexVal h4 with
        | some a, some b, some c2, some d =>
          parseStringBody fuel rest2 (Char.ofNat (((a * 16 + b) * 16 + c2) * 16 + d) :: acc)
        | _, _, _, _ => none
      | e :: rest2 =>
        match escChar e with
        | some ch => parseStringBody fuel rest2 (ch :: acc)
        | none => none
    else parseStringBody fuel rest (c :: acc)

/-- Longest digit run at the head of the input, and the remainder. -/
def spanDigits (cs : List Char) : List Char × List Char :=
  (cs.takeWhile Char.isDigit, cs.dropWhile Char.isDigit)

/-- Number lexeme (sign, integer part, optional fraction, optional exponent).
Slightly more liberal than JSON.parse about leading zeros; no claim depends
on that corner. -/
def parseNumberLex (cs : List Char) : Option (String × List Char) :=
  let signRest : List Char × List Char :=
    match cs with
    | '-' :: rest => (['-'], rest)
    | _ => ([], cs)
  match spanDigits signRest.2 with
  | ([], _) => none
  | (ds, cs2) =>
    let fracRest : List Char × List Char :=
      match cs2 with
      | '.' :: rest =>
        match spanDigits rest with
        | ([], _) => ([], cs2)
        | (fs, r) => ('.' :: fs, r)
      | _ => ([], cs2)
    let expRest : List Char × List Char :=
      match fracRest.2 with
      | e :: rest =>
        if e = 'e' ∨ e = 'E' then
          match rest with
          | s :: rest2 =>
            if s = '+' ∨ s = '-' then
              match spanDigits rest2 with
              | ([], _) => ([], fracRest.2)
              | (es, r) => (e :: s :: es, r)
            else
              match spanDigits rest with
              | ([], _) => ([], fracRest.2)
              | (es, r) => (e :: es, r)
          | [] => ([], fracRest.2)
        else ([], fracRest.2)
      | [] => ([], fracRest.2)
    some (String.mk (signRest.1 ++ ds ++ fracRest.1 ++ expRest.1), expRest.2)

mutual

/-- One JSON value.  Models the grammar accepted by JSON.parse; fueled so the
mutual recursion is structural. -/
def parseValue : Nat → List Char → Option (Json × List Char)
  | 0, _ => none
  | fuel + 1, cs =>
    match skipWs cs with
    | '{' :: rest =>
      match skipWs rest with
      | '}' :: rest2 => some (Json.obj [], rest2)
      | rest2 => parseMembers fuel rest2 []
    | '[' :: rest =>
      match skipWs rest with
      | ']' :: rest2 => some (Json.arr [], rest2)
      | rest2 => parseItems fuel rest2 []
    | '"' :: rest =>
      match parseStringBody (rest.length + 1) rest [] with
      | some (s, rest2) => some (Json.str s, rest2)
      | none => none
    | 't' :: 'r' :: 'u' :: 'e' :: rest => some (Json.bool true, rest)
    | 'f' :: 'a' :: 'l' :: 's' :: 'e' :: rest => some (Json.bool false, rest)
    | 'n' :: 'u' :: 'l' :: 'l' :: rest => some (Json.null, rest)
    | other =>
      match parseNumberLex other with
      | some (l, rest) => some (Json.num l, rest)
      | none => none

/-- Members of a JSON object, after the opening brace (nonempty case). -/
def parseMembers : Nat → List Char → List (String × Json) → Option (Json × List Char)
  | 0, _, _ => none
  | fuel + 1, cs, acc =>
    match skipWs cs with
    | '"' :: rest =>
      match parseStringBody (rest.length + 1) rest [] with
      | none => none
      | some (key, rest2) =>
        match skipWs rest2 with
        | ':' :: rest3 =>
          match parseValue fuel rest3 with
          | none => none
          | some (v, rest4) =>
            match skipWs rest4 with
            | ',' :: rest5 => parseMembers fuel rest5 ((key, v) :: acc)
            | '}' :: rest5 => some (Json.obj (((key, v) :: acc).reverse), rest5)
            | _ => none
        | _ => none
    | _ => none

/-- Items of a JSON array, after the opening bracket (nonempty case). -/
def parseItems : Nat → List Char → List Json → Option (Json × List Char)
  | 0, _, _ => none
  | fuel + 1, cs, acc =>
    match parseValue fuel cs with
    | none => none
    | some (v, rest) =>
      match skipWs rest with
      | ',' :: rest2 => parseItems fuel rest2 (v :: acc)
      | ']' :: rest2 => some (Json.arr ((v :: acc).reverse), rest2)
      | _ => none

end

/-- Model of JSON.parse: parse one value and require only whitespace after it;
any failure is the exception path of the JavaScript try block. -/
def parseJson (raw : String) : Option Json :=
  match parseValue (raw.length + 1) raw.data with
  | some (j, rest) =>
    match skipWs rest with
    | [] => some j
    | _ => none
  | none => none

/-- Property lookup on a parsed object, later duplicate keys winning as in
JSON.parse.  Property access on a non-object JSON value yields undefined,
modelled as none. -/
def lookupLast (k : String) : List (String × Json) → Option Json
  | [] => none
  | (k2, v) :: rest =>
    match lookupLast k rest with
    | some r => some r
    | none => if k2 = k then some v else none

/-- Model of JavaScript property access v[k] on a JSON.parse result. -/
def Json.getField : Json → String → Option Json
  | .obj fields, k => lookupLast k fields
  | _, _ => none

/-- True when every mantissa digit of a number lexeme is zero, i.e. the
JavaScript number it denotes is 0 (or -0). -/
def numLexIsZero (l : String) : Bool :=
  (l.data.takeWhile (fun c => c ≠ 'e' ∧ c ≠ 'E')).all (fun c => !c.isDigit || c == '0')

/-- JavaScript truthiness of a JSON.parse result. -/
def Json.truthy : Json → Bool
  | .null => false
  | .bool b => b
  | .num l => !numLexIsZero l
  | .str s => !s.isEmpty
  | .arr _ => true
  | .obj _ => true

/-- Truthiness of a possibly-undefined property (undefined is falsy). -/
def truthyOpt : Option Json → Bool
  | some v => v.truthy
  | none => false

mutual

/-- Model of JavaScript string interpolation of a JSON.parse result
(template literals and string concatenation).  Number lexemes are
used verbatim; the claims only interpolate strings. -/
def Json.display : Json → String
  | .null => "null"
  | .bool true => "true"
  | .bool false => "false"
  | .num l => l
  | .str s => s
  | .arr xs => Json.displayItems xs
  | .obj _ => "[object Object]"

/-- Array toString: elements joined with commas, null elements empty. -/
def Json.displayItems : List Json → String
  | [] => ""
  | [.null] => ""
  | [j] => Json.display j
  | .null :: rest => "," ++ Json.displayItems rest
  | j :: rest => Json.display j ++ "," ++ Json.displayItems rest

end

/-- Escaping used by the JSON.stringify model (the common escapes; enough
for every value the scripts can feed it). -/
def escapeJsonChar (c : Char) : List Char :=
  if c = '"' then ['\\', '"']
  else if c = '\\' then ['\\', '\\']
  else if c = '\n' then ['\\', 'n']
  else if c = '\t' then ['\\', 't']
  else if c = '\r' then ['\\', 'r']
  else [c]

mutual

/-- Model of JSON.stringify on a JSON.parse result. -/
def Json.stringify : Json → String
  | .null => "null"
  | .bool true => "true"
  | .bool false => "false"
  | .num l => l
  | .str s => "\"" ++ String.mk (s.data.flatMap escapeJsonChar) ++ "\""
  | .arr xs => "[" ++ Json.stringifyItems xs ++ "]"
  | .obj fs => "\x7b" ++ Json.stringifyMembers fs ++ "\x7d"

/-- Comma-separated stringified array items. -/
def Json.stringifyItems : List Json → String
  | [] => ""
  | [j] => Json.stringify j
  | j :: rest => Json.stringify j ++ "," ++ Json.stringifyItems rest

/-- Comma-separated stringified object members. -/
def Json.stringifyMembers : List (String × Json) → String
  | [] => ""
  | [(k, v)] => "\"" ++ k ++ "\":" ++ Json.stringify v
  | (k, v) :: rest => "\"" ++ k ++ "\":" ++ Json.stringify v ++ "," ++ Json.stringifyMembers rest

end

/-- Substring test used for the JavaScript String.prototype.includes calls:
does the second list occur at the head of the first? -/
def listStartsWith : List Char → List Char → Bool
  | [], _ => true
  | _ :: _, [] => false
  | n :: ns, h :: hs => n == h && listStartsWith ns hs

/-- Does the needle occur anywhere in the haystack? -/
def listContains (needle : List Char) : List Char → Bool
  | [] => listStartsWith needle []
  | h :: hs => listStartsWith needle (h :: hs) || listContains needle hs

/-- Model of hay.includes(needle) on JavaScript strings. -/
def strIncludes (hay needle : String) : Bool :=
  listContains needle.data hay.data

/-- AlertRecord of the specification: the data carried by one rendered
notification item.  videoFilename and detectionTimestamp are the values the
script interpolates into the item markup; isSynthetic records whether the
item was manufactured by the error handler. -/
structure AlertRecord where
  videoFilename : String
  detectionTimestamp : Option String
  isSynthetic : Bool
deriving DecidableEq

/-- Children of the notifications container: status paragraphs and
notification items. -/
inductive DomNode where
  | para (text : String)
  | notifItem (record : AlertRecord)
deriving DecidableEq

/-- Text of the first paragraph child, as found by querySelector.
Notification items contain no paragraph descendants. -/
def firstPara? : List DomNode → Option String
  | [] => none
  | .para t :: _ => some t
  | .notifItem _ :: rest => firstPara? rest

/-- One pass of the while loop at the end of addNotification and
addUserNotification, bounded by a step budget: remove the last child while
the child count exceeds the limit.  Each iteration shortens the list, so a
budget of the starting length makes the budget never bind. -/
def evictSteps (cap : Nat) : Nat → List DomNode → List DomNode
  | 0, l => l
  | n + 1, l => if cap < l.length then evictSteps cap n l.dropLast else l

/-- The while loop at the end of addNotification and addUserNotification:
remove the last child while the child count exceeds the limit. -/
def evictTail (cap : Nat) (l : List DomNode) : List DomNode :=
  evictSteps cap l.length l

/-- The AlertRecord built by addNotification in dashboard_script.js:
crashData.video_filename || a default, the raw detection_timestamp when
truthy (its toLocaleString rendering is locale behaviour, not modelled),
and the isError flag. -/
def mkRecord (defaultName : String) (crashData : Json) (isError : Bool) : AlertRecord :=
  { videoFilename :=
      match crashData.getField "video_filename" with
      | some v => if v.truthy then v.display else defaultName
      | none => defaultName
    detectionTimestamp :=
      match crashData.getField "detection_timestamp" with
      | some v => if v.truthy then some v.display else none
      | none => none
    isSynthetic := isError }

/-- Core of addNotification/addUserNotification: build the item, clear the
container when its first paragraph is the Waiting placeholder, prepend the
new item, then evict from the tail down to the capacity.  Returns the new
children of the container and the record that was inserted. -/
def addNotifCore (cap : Nat) (defaultName : String) (div : List DomNode)
    (crashData : Json) (isError : Bool) : List DomNode × AlertRecord :=
  let r := mkRecord defaultName crashData isError
  let cleared :=
    match firstPara? div with
    | some t => if strIncludes t "Waiting" then [] else div
    | none => div
  (evictTail cap (DomNode.notifItem r :: cleared), r)

/-- addNotification of dashboard_script.js (operator view): capacity 20,
default video label Unknown Video. -/
def addNotification (div : List DomNode) (crashData : Json) (isError : Bool) :
    List DomNode × AlertRecord :=
  addNotifCore 20 "Unknown Video" div crashData isError

/-- addUserNotification of webapp_script.js (end-user view): capacity 10,
default video label N/A. -/
def addUserNotification (div : List DomNode) (crashData : Json) (isError : Bool) :
    List DomNode × AlertRecord :=
  addNotifCore 10 "N/A" div crashData isError

/-- The check message.type === new_crash of the onmessage handlers
(strict string equality, false for a missing or non-string type). -/
def isNewCrashType : Option Json → Bool
  | some (Json.str s) => s == "new_crash"
  | _ => false

/-- WireCodec of the specification, as implemented inline in both onmessage
handlers: JSON.parse in a try block, then the guard
message.type === new_crash AND message.data truthy.  Returns the data
payload to dispatch, or none for every dropped message. -/
def decodeCrash (raw : String) : Option Json :=
  match parseJson raw with
  | none => none
  | some m =>
    if isNewCrashType (m.getField "type") && truthyOpt (m.getField "data") then
      m.getField "data"
    else none

/-- ws.onmessage of dashboard_script.js: returns the new children of the
notifications container together with the list of AlertRecords dispatched
to it (one on the recognized-envelope path, none otherwise). -/
def handleDashMessage (div : List DomNode) (raw : String) :
    List DomNode × List AlertRecord :=
  match decodeCrash raw with
  | some d => ((addNotification div d false).1, [mkRecord "Unknown Video" d false])
  | none => (div, [])

/-- ws.onmessage of webapp_script.js. -/
def handleUserMessage (div : List DomNode) (raw : String) :
    List DomNode × List AlertRecord :=
  match decodeCrash raw with
  | some d => ((addUserNotification div d false).1, [mkRecord "N/A" d false])
  | none => (div, [])

/-- The ngrok base URL configured in webapp_script.js. -/
def NGROK_HTTPS_URL : String := "https://c813-50-234-34-194.ngrok-free.app"

/-- The replace(/^https?:\/\//, "") call building the end-user WebSocket URL. -/
def stripHttpScheme (s : String) : String :=
  if listStartsWith "https://".data s.data then String.mk (s.data.drop 8)
  else if listStartsWith "http://".data s.data then String.mk (s.data.drop 7)
  else s

/-- WEBSOCKET_URL of webapp_script.js. -/
def USER_WEBSOCKET_URL : String := "wss://" ++ stripHttpScheme NGROK_HTTPS_URL ++ "/ws"

/-- The crashData object literal passed by ws.onerror in dashboard_script.js;
nowIso models new Date().toISOString(). -/
def dashErrData (nowIso : String) : Json :=
  Json.obj [("video_filename", Json.str "WebSocket Error"),
            ("detection_timestamp", Json.str nowIso)]

/-- The crashData object literal passed by ws.onerror in webapp_script.js. -/
def userErrData (nowIso : String) : Json :=
  Json.obj [("video_filename", Json.str ("WebSocket Conn Error to " ++ USER_WEBSOCKET_URL)),
            ("detection_timestamp", Json.str nowIso)]

/-- ws.onerror of dashboard_script.js: add one error-styled notification.
Returns the new container children and the records emitted. -/
def wsOnErrorDash (div : List DomNode) (nowIso : String) :
    List DomNode × List AlertRecord :=
  ((addNotification div (dashErrData nowIso) true).1,
   [(addNotification div (dashErrData nowIso) true).2])

/-- ws.onerror of webapp_script.js. -/
def wsOnErrorUser (div : List DomNode) (nowIso : String) :
    List DomNode × List AlertRecord :=
  ((addUserNotification div (userErrData nowIso) true).1,
   [(addUserNotification div (userErrData nowIso) true).2])

/-- Status paragraph written by ws.onclose in dashboard_script.js. -/
def dashCloseText : String := "WebSocket disconnected. Attempting to reconnect in 5 seconds..."

/-- Status paragraph written by ws.onclose in webapp_script.js. -/
def userCloseText : String := "WebSocket disconnected. Attempting to reconnect..."

/-- ws.onclose of dashboard_script.js: replace the notification area with the
disconnect status paragraph, emit no record, and schedule connectWebSocket
with setTimeout.  Returns the children, emitted records, and the delay in
milliseconds passed to setTimeout. -/
def wsOnCloseDash (_div : List DomNode) : (List DomNode × List AlertRecord) × Nat :=
  (([DomNode.para dashCloseText], []), 5000)

/-- ws.onclose of webapp_script.js. -/
def wsOnCloseUser (_div : List DomNode) : (List DomNode × List AlertRecord) × Nat :=
  (([DomNode.para userCloseText], []), 5000)

/-- Paragraph written by ws.onopen when the placeholder is still showing. -/
def connectedText : String := "Connected. Waiting for new crash alerts..."

/-- ws.onopen of both scripts: replace the Waiting placeholder (when still
present as the first paragraph) with the connected placeholder. -/
def wsOnOpenDiv (div : List DomNode) : List DomNode :=
  match firstPara? div with
  | some t => if strIncludes t "Waiting" then [DomNode.para connectedText] else div
  | none => div

/-- ConnectionState of the specification.  The scripts keep no explicit
state variable; this enum reflects the lifecycle of the single WebSocket
held in the ws variable (CONNECTING from construction, OPEN after onopen,
CLOSED_PENDING_RETRY after onclose until the 5000 ms timer fires). -/
inductive ConnState where
  | IDLE
  | CONNECTING
  | OPEN
  | CLOSED_PENDING_RETRY
deriving DecidableEq

/-- Events delivered by the browser event loop to the current socket and
timer: onopen, onmessage, onerror, onclose, and the reconnect timer firing.
onerror carries the new Date().toISOString() string observed then. -/
inductive WsEvent where
  | opened
  | message (raw : String)
  | errored (nowIso : String)
  | closed
  | timerFired
deriving DecidableEq

/-- View-specific parts of the connection manager (the two scripts differ
only in which notification function and status strings they use). -/
structure Handlers where
  onMessageDiv : List DomNode → String → List DomNode
  onErrorDiv : List DomNode → String → List DomNode
  closeText : String

/-- Dashboard (operator) view handlers. -/
def dashHandlers : Handlers :=
  { onMessageDiv := fun div raw => (handleDashMessage div raw).1
    onErrorDiv := fun div now => (wsOnErrorDash div now).1
    closeText := dashCloseText }

/-- End-user view handlers. -/
def userHandlers : Handlers :=
  { onMessageDiv := fun div raw => (handleUserMessage div raw).1
    onErrorDiv := fun div now => (wsOnErrorUser div now).1
    closeText := userCloseText }

/-- Client state: the lifecycle state of the socket in the ws variable,
whether a reconnect timer from setTimeout is pending, the children of the
notifications container, and the log of delays passed to setTimeout. -/
structure ClientState where
  conn : ConnState
  timerPending : Bool
  div : List DomNode
  scheduledDelays : List Nat
deriving DecidableEq

/-- One browser event against the current socket.  Encodes the WebSocket
event contract: onopen fires once while connecting; onmessage only while
open; onerror and onclose only for a live (connecting or open) socket;
onclose fires exactly once per socket; a setTimeout callback fires only
while its timer is pending, and connectWebSocket then constructs a fresh
(CONNECTING) socket.  Events that cannot occur yield none. -/
def step (h : Handlers) (s : ClientState) : WsEvent → Option ClientState
  | .opened =>
    if s.conn = ConnState.CONNECTING then
      some { s with conn := ConnState.OPEN, div := wsOnOpenDiv s.div }
    else none
  | .message raw =>
    if s.conn = ConnState.OPEN then
      some { s with div := h.onMessageDiv s.div raw }
    else none
  | .errored now =>
    if s.conn = ConnState.CONNECTING ∨ s.conn = ConnState.OPEN then
      some { s with div := h.onErrorDiv s.div now }
    else none
  | .closed =>
    if s.conn = ConnState.CONNECTING ∨ s.conn = ConnState.OPEN then
      some { s with conn := ConnState.CLOSED_PENDING_RETRY,
                    timerPending := true,
                    div := [DomNode.para h.closeText],
                    scheduledDelays := s.scheduledDelays ++ [5000] }
    else none
  | .timerFired =>
    if s.timerPending then
      some { s with conn := ConnState.CONNECTING, timerPending := false }
    else none

/-- Client state right after the connectWebSocket call on DOMContentLoaded:
one socket constructed and connecting, no pending timer. -/
def initClient (div0 : List DomNode) : ClientState :=
  { conn := ConnState.CONNECTING, timerPending := false, div := div0, scheduledDelays := [] }

/-- Run a sequence of browser events; none when some event in the sequence
cannot occur. -/
def run (h : Handlers) : ClientState → List WsEvent → Option ClientState
  | s, [] => some s
  | s, e :: es =>
    match step h s e with
    | some s2 => run h s2 es
    | none => none

/-- One loss/retry cycle, repeated n times: the socket closes, then the
5000 ms timer fires and reconnects. -/
def cycleEvents : Nat → List WsEvent
  | 0 => []
  | n + 1 => WsEvent.closed :: WsEvent.timerFired :: cycleEvents n

/-- Is this event a close event? -/
def isClosedEvt : WsEvent → Bool
  | .closed => true
  | _ => false

/-- Count of close events in a trace. -/
def countClosed (evs : List WsEvent) : Nat :=
  evs.countP isClosedEvt

/-- Outcome of one fetch call, as observed by the awaiting script: the
promise rejects (network failure), or a response arrives with an HTTP
status and a body whose .json() either parses or throws. -/
inductive FetchOutcome where
  | networkError (msg : String)
  | response (status : Nat) (body : Except String Json)

/-- Response.ok of the fetch API: status in the 2xx range. -/
def responseOk (status : Nat) : Bool :=
  decide (200 ≤ status) && decide (status < 300)

/-- UI state touched by fetchCrashHistory in dashboard_script.js: the status
line, the rows of the history table body (kept as the raw array elements;
cell formatting is rendering), and the Load-History button. -/
structure HistoryUI where
  historyStatus : String
  historyRows : List Json
  loadHistoryBtnDisabled : Bool

/-- Result of one fetchCrashHistory run: the final UI state and the log of
values assigned to loadHistoryBtn.disabled, in order. -/
structure HistoryRun where
  ui : HistoryUI
  btnLog : List Bool

/-- The historyData.length === 0 test.  JavaScript looks the length property
up on whatever .json() produced: arrays and strings have a numeric length,
an object may carry one as a field, anything else gives undefined (never
strictly equal to 0). -/
def jsLengthIsZero : Json → Bool
  | .arr xs => xs.isEmpty
  | .str s => s.isEmpty
  | .obj fs =>
    match lookupLast "length" fs with
    | some (.num l) => numLexIsZero l
    | _ => false
  | _ => false

/-- API base URL of dashboard_script.js. -/
def API_BASE_URL : String := "http://127.0.0.1:8000"

/-- fetchCrashHistory of dashboard_script.js.  Sets the loading status,
clears the table body, disables the button, performs the fetch, fills the
table or reports, and re-enables the button in the finally block.  The
forEach call on a non-array .json() result throws a TypeError, which the
same catch block turns into the inline error status. -/
def fetchCrashHistory (_ui : HistoryUI) (outcome : FetchOutcome) : HistoryRun :=
  let uiStart : HistoryUI :=
    { historyStatus := "Loading history...", historyRows := [], loadHistoryBtnDisabled := true }
  let uiEnd : HistoryUI :=
    match outcome with
    | .networkError msg =>
      { uiStart with historyStatus := "Error loading history: " ++ msg }
    | .response st body =>
      if responseOk st then
        match body with
        | .error jsonErr =>
          { uiStart with historyStatus := "Error loading history: " ++ jsonErr }
        | .ok j =>
          if jsLengthIsZero j then
            { uiStart with historyStatus := "No crash history found." }
          else
            match j with
            | .arr xs => { uiStart with historyStatus := "", historyRows := xs }
            | _ =>
              { uiStart with historyStatus :=
                  "Error loading history: historyData.forEach is not a function" }
      else
        { uiStart with historyStatus :=
            "Error loading history: HTTP error! status: " ++ toString st }
  { ui := { uiEnd with loadHistoryBtnDisabled := false }, btnLog := [true, false] }

/-- Does the history status line show the inline error rendering of the
catch block? -/
def historyErrored (ui : HistoryUI) : Bool :=
  listStartsWith "Error loading history: ".data ui.historyStatus.data

/-- UI state touched by the weather path of webapp_script.js. -/
structure WeatherUI where
  weatherInfo : String
  locationStatus : String
  refreshBtnDisabled : Bool

/-- Result of one advisory-chain run: final UI, the URLs fetched (in order),
the values assigned to refreshWeatherBtn.disabled, and the values assigned
to locationStatusP.textContent, all in order. -/
structure WeatherRun where
  ui : WeatherUI
  fetchCalls : List String
  btnLog : List Bool
  statusLog : List String

/-- The weather URL built by fetchWeatherAndSpeed: query parameters appended
exactly when both coordinates were supplied.  Coordinates are carried as
their interpolated strings. -/
def weatherUrl : Option (String × String) → String
  | some (la, lo) =>
    NGROK_HTTPS_URL ++ "/api/weather_conditions?lat=" ++ la ++ "&lon=" ++ lo
  | none => NGROK_HTTPS_URL ++ "/api/weather_conditions"

/-- Inline error paragraph of the weather catch block. -/
def weatherErrHtml (msg : String) : String :=
  "<p style=\"color: red;\">Could not load weather data: " ++ msg ++ "</p>"

/-- Interpolation of a possibly-missing property (undefined renders as the
string undefined). -/
def jsDisplayField (j : Json) (k : String) : String :=
  match j.getField k with
  | some v => v.display
  | none => "undefined"

/-- value || fallback interpolation used for data.weather_desc. -/
def jsFieldOr (j : Json) (k fallback : String) : String :=
  match j.getField k with
  | some v => if v.truthy then v.display else fallback
  | none => fallback

/-- The data.visibility_km !== null ? data.visibility_km + " km" : "N/A"
rendering (a missing property is undefined, which is not strictly equal to
null, so it renders as undefined km). -/
def visibilityText (j : Json) : String :=
  match j.getField "visibility_km" with
  | some Json.null => "N/A"
  | some v => v.display ++ " km"
  | none => "undefined km"

/-- Markup written to weather-info on a successful advisory response. -/
def renderWeather (data : Json) : String :=
  "<p><strong>Weather:</strong> " ++ jsFieldOr data "weather_desc" "N/A" ++
  "</p><p><strong>Visibility:</strong> " ++ visibilityText data ++
  "</p><p><strong>Raining:</strong> " ++
  (if truthyOpt (data.getField "is_raining") then "Yes" else "No") ++
  "</p><p><strong>Max Safe Speed:</strong> " ++ jsDisplayField data "safe_speed_kmh" ++
  " km/h</p>"

/-- The errorDetail string built for a non-ok advisory response:
HTTP error! status: ... plus, when the error body parses,
 - errorJson.detail || JSON.stringify(errorJson). -/
def weatherErrorDetail (st : Nat) (body : Except String Json) : String :=
  "HTTP error! status: " ++ toString st ++
    (match body with
     | .ok j =>
       " - " ++
         (match j.getField "detail" with
          | some d => if d.truthy then d.display else Json.stringify j
          | none => Json.stringify j)
     | .error _ => "")

/-- fetchWeatherAndSpeed of webapp_script.js, with the coordinates argument
as an optional pair of interpolated strings (null/null when called with no
arguments).  Returns the final UI, the single URL fetched, and the button
and status logs of this call. -/
def fetchWeatherAndSpeed (coords : Option (String × String)) (outcome : FetchOutcome)
    (_ui : WeatherUI) : WeatherRun :=
  let ui1 : WeatherUI :=
    { weatherInfo := "<p>Fetching weather data...</p>",
      locationStatus := "Requesting weather...",
      refreshBtnDisabled := true }
  let url := weatherUrl coords
  let pre : WeatherUI × List String :=
    match coords with
    | some _ => (ui1, ["Requesting weather..."])
    | none =>
      ({ ui1 with locationStatus := "Using default location for weather." },
       ["Requesting weather...", "Using default location for weather."])
  let post : WeatherUI × List String :=
    match outcome with
    | .networkError msg =>
      ({ pre.1 with weatherInfo := weatherErrHtml msg,
                    locationStatus := "Failed to get weather." },
       ["Failed to get weather."])
    | .response st body =>
      if responseOk st then
        match body with
        | .ok data =>
          ({ pre.1 with weatherInfo := renderWeather data,
                        locationStatus := "Weather based on: " ++ jsDisplayField data "location_used" },
           ["Weather based on: " ++ jsDisplayField data "location_used"])
        | .error jsonErr =>
          ({ pre.1 with weatherInfo := weatherErrHtml jsonErr,
                        locationStatus := "Failed to get weather." },
           ["Failed to get weather."])
      else
        ({ pre.1 with weatherInfo := weatherErrHtml (weatherErrorDetail st body),
                      locationStatus := "Failed to get weather." },
         ["Failed to get weather."])
  { ui := { post.1 with refreshBtnDisabled := false },
    fetchCalls := [url],
    btnLog := [true, false],
    statusLog := pre.2 ++ post.2 }

/-- Behaviour of the Capacitor Geolocation collaborator for one advisory
cycle: whether the plugin object is available, what requestPermissions does
(throws, or resolves with a permStatus.location string), and what
getCurrentPosition does (throws, or resolves with coordinates carried as
their interpolated strings). -/
structure GeoEnv where
  pluginAvailable : Bool
  permResult : Except String String
  positionResult : Except String (String × String)

/-- The permStatus.location values the script treats as a grant. -/
def grantedStatus (ps : String) : Bool :=
  ps == "granted" || ps == "prompt-with-rationale"

/-- The coordinates the advisory fetch ends up using: present exactly when
the plugin is available, permission resolves to a granting status, and
position acquisition succeeds; absent (server default) otherwise. -/
def usedCoords (geo : GeoEnv) : Option (String × String) :=
  if geo.pluginAvailable then
    match geo.permResult with
    | .ok ps =>
      if grantedStatus ps then
        match geo.positionResult with
        | .ok c => some c
        | .error _ => none
      else none
    | .error _ => none
  else none

/-- requestLocationAndFetchWeather of webapp_script.js: disable the trigger
button, walk the permission/position chain, and call fetchWeatherAndSpeed
exactly once, with coordinates on the fully successful path and without on
every failure path (the catch block funnels every throw to the
default-location call).  The finally block is empty: re-enabling the button
is left to fetchWeatherAndSpeed. -/
def requestLocationAndFetchWeather (geo : GeoEnv) (outcome : FetchOutcome)
    (ui : WeatherUI) : WeatherRun :=
  let log0 := ["Requesting location permission..."]
  let catchRun : String → WeatherRun := fun emsg =>
    let inner := fetchWeatherAndSpeed none outcome ui
    { inner with btnLog := true :: inner.btnLog,
                 statusLog := log0 ++ ["Could not get location: " ++ emsg ++ ". Using default."] ++ inner.statusLog }
  if geo.pluginAvailable then
    match geo.permResult with
    | .error e => catchRun e
    | .ok ps =>
      if grantedStatus ps then
        match geo.positionResult with
        | .ok c =>
          let inner := fetchWeatherAndSpeed (some c) outcome ui
          { inner with btnLog := true :: inner.btnLog,
                       statusLog := log0 ++ ["Permission granted. Getting position...", "Location acquired."] ++ inner.statusLog }
        | .error e =>
          let inner := fetchWeatherAndSpeed none outcome ui
          { inner with btnLog := true :: inner.btnLog,
                       statusLog := log0 ++ ["Permission granted. Getting position...",
                         "Could not get location: " ++ e ++ ". Using default."] ++ inner.statusLog }
      else
        let inner := fetchWeatherAndSpeed none outcome ui
        { inner with btnLog := true :: inner.btnLog,
                     statusLog := log0 ++ ["Location permission denied. Using default location."] ++ inner.statusLog }
  else
    catchRun "Geolocation plugin is not available. Check import/Capacitor setup."

/-- A sequence of pushes through the common notification routine. -/
def pushManyGen (cap : Nat) (dn : String) (div : List DomNode) (xs : List (Json × Bool)) :
    List DomNode :=
  xs.foldl (fun dv p => (addNotifCore cap dn dv p.1 p.2).1) div

/-- A sequence of addNotification calls (operator view). -/
def pushManyDash (div : List DomNode) (xs : List (Json × Bool)) : List DomNode :=
  xs.foldl (fun dv p => (addNotification dv p.1 p.2).1) div

/-- A sequence of addUserNotification calls (end-user view). -/
def pushManyUser (div : List DomNode) (xs : List (Json × Bool)) : List DomNode :=
  xs.foldl (fun dv p => (addUserNotification dv p.1 p.2).1) div

theorem evictSteps_eq_take (cap : Nat) :
    ∀ (n : Nat) (l : List DomNode), l.length ≤ cap + n → evictSteps cap n l = l.take cap := by
  intro n
  induction n with
  | zero =>
    intro l h
    simp only [evictSteps]
    exact (List.take_of_length_le (by omega)).symm
  | succ n ih =>
    intro l h
    simp only [evictSteps]
    by_cases hc : cap < l.length
    · rw [if_pos hc, ih _ (by simp only [List.length_dropLast]; omega)]
      rw [List.dropLast_eq_take, List.take_take]
      congr 1
      omega
    · rw [if_neg hc]
      exact (List.take_of_length_le (by omega)).symm

theorem evictTail_eq_take (cap : Nat) (l : List DomNode) : evictTail cap l = l.take cap :=
  evictSteps_eq_take cap l.length l (by omega)

theorem firstPara?_take :
    ∀ (l : List DomNode) (n : Nat), firstPara? l = none → firstPara? (l.take n) = none := by
  intro l
  induction l with
  | nil => intro n _; simp [List.take_nil, firstPara?]
  | cons a t ih =>
    intro n h
    cases a with
    | para s => simp [firstPara?] at h
    | notifItem r =>
      cases n with
      | zero => simp [firstPara?]
      | succ n =>
        rw [List.take_succ_cons]
        exact ih n h

theorem addNotifCore_fst (cap : Nat) (dn : String) (div : List DomNode) (d : Json) (b : Bool)
    (h : firstPara? div = none) :
    (addNotifCore cap dn div d b).1 = (DomNode.notifItem (mkRecord dn d b) :: div).take cap := by
  simp only [addNotifCore, h, evictTail_eq_take]

theorem take_append_take {α : Type} (n : Nat) (x y : List α) :
    (x ++ y.take n).take n = (x ++ y).take n := by
  rw [List.take_append_eq_append_take, List.take_append_eq_append_take, List.take_take]
  congr 2
  omega

theorem pushManyGen_eq (cap : Nat) (dn : String) :
    ∀ (xs : List (Json × Bool)) (div : List DomNode),
      firstPara? div = none → div.length ≤ cap →
      pushManyGen cap dn div xs
        = ((xs.map (fun p => DomNode.notifItem (mkRecord dn p.1 p.2))).reverse ++ div).take cap := by
  intro xs
  induction xs with
  | nil =>
    intro div _ hlen
    exact (List.take_of_length_le (by simpa using hlen)).symm
  | cons p xs ih =>
    intro div h hlen
    have hhd : pushManyGen cap dn div (p :: xs)
        = pushManyGen cap dn ((addNotifCore cap dn div p.1 p.2).1) xs := rfl
    rw [hhd, addNotifCore_fst cap dn div p.1 p.2 h]
    rw [ih (List.take cap (DomNode.notifItem (mkRecord dn p.1 p.2) :: div))
          (firstPara?_take (DomNode.notifItem (mkRecord dn p.1 p.2) :: div) cap h)
          (by simp only [List.length_take]; omega)]
    rw [take_append_take]
    congr 1
    simp [List.append_assoc]

theorem addNotifCore_head (cap : Nat) (dn : String) (div : List DomNode) (d : Json) (b : Bool)
    (h : 0 < cap) :
    (addNotifCore cap dn div d b).1.head? = some (DomNode.notifItem (mkRecord dn d b)) := by
  obtain ⟨n, rfl⟩ : ∃ n, cap = n + 1 := ⟨cap - 1, by omega⟩
  simp only [addNotifCore, evictTail_eq_take, List.take_succ_cons, List.head?_cons]

/-- C1: pushing N records with N above the capacity (20 for the operator
view addNotification, 10 for the end-user view addUserNotification)
leaves the notification container with exactly capacity items, namely the
most recent capacity records most-recent-first; every insertion lands at
the head, and the eviction loop is exactly truncation at the tail. -/
theorem notification_buffer_bounded (xs ys : List (Json × Bool)) (div : List DomNode)
    (d : Json) (b : Bool) (l : List DomNode)
    (h20 : 20 < xs.length) (h10 : 10 < ys.length) :
    (pushManyDash [] xs).length = 20 ∧
    pushManyDash [] xs
      = ((xs.map (fun p => DomNode.notifItem (mkRecord "Unknown Video" p.1 p.2))).reverse).take 20 ∧
    (pushManyUser [] ys).length = 10 ∧
    pushManyUser [] ys
      = ((ys.map (fun p => DomNode.notifItem (mkRecord "N/A" p.1 p.2))).reverse).take 10 ∧
    (addNotification div d b).1.head? = some (DomNode.notifItem (mkRecord "Unknown Video" d b)) ∧
    (addUserNotification div d b).1.head? = some (DomNode.notifItem (mkRecord "N/A" d b)) ∧
    evictTail 20 l = l.take 20 ∧
    evictTail 10 l = l.take 10 := by
  have hdash : pushManyDash [] xs
      = ((xs.map (fun p => DomNode.notifItem (mkRecord "Unknown Video" p.1 p.2))).reverse).take 20 := by
    have := pushManyGen_eq 20 "Unknown Video" xs [] rfl (by simp)
    simpa using this
  have huser : pushManyUser [] ys
      = ((ys.map (fun p => DomNode.notifItem (mkRecord "N/A" p.1 p.2))).reverse).take 10 := by
    have := pushManyGen_eq 10 "N/A" ys [] rfl (by simp)
    simpa using this
  refine ⟨?_, hdash, ?_, huser, ?_, ?_, evictTail_eq_take 20 l, evictTail_eq_take 10 l⟩
  · rw [hdash]
    simp only [List.length_take, List.length_reverse, List.length_map]
    omega
  · rw [huser]
    simp only [List.length_take, List.length_reverse, List.length_map]
    omega
  · exact addNotifCore_head 20 "Unknown Video" div d b (by omega)
  · exact addNotifCore_head 10 "N/A" div d b (by omega)

/-- C1 witness: 21 pushes leave the operator container at 20 items and 11
pushes leave the end-user container at 10. -/
theorem notification_buffer_bounded_witness :
    20 < (List.replicate 21 ((Json.null, false) : Json × Bool)).length ∧
    10 < (List.replicate 11 ((Json.null, false) : Json × Bool)).length ∧
    (pushManyDash [] (List.replicate 21 (Json.null, false))).length = 20 ∧
    (pushManyUser [] (List.replicate 11 (Json.null, false))).length = 10 := by
  have h := notification_buffer_bounded (List.replicate 21 (Json.null, false))
    (List.replicate 11 (Json.null, false)) [] Json.null false []
    (by decide) (by decide)
  exact ⟨by decide, by decide, h.1, h.2.2.1⟩

/-- The raw inbound frame of the dispatch test. -/
def c2Envelope : String :=
  "\x7b\"type\":\"new_crash\",\"data\":\x7b\"video_filename\":\"a.mp4\",\"detection_timestamp\":\"2024-01-01T00:00:00Z\"\x7d\x7d"

/-- C2: the new_crash envelope carrying video_filename a.mp4 makes each
onmessage handler dispatch exactly one AlertRecord, carrying
videoFilename a.mp4 (and it is not synthetic), whatever the current
container contents. -/
theorem new_crash_dispatches_one_record (div divU : List DomNode) :
    (handleDashMessage div c2Envelope).2.length = 1 ∧
    (handleDashMessage div c2Envelope).2.map (fun r => r.videoFilename) = ["a.mp4"] ∧
    (handleDashMessage div c2Envelope).2.map (fun r => r.isSynthetic) = [false] ∧
    (handleUserMessage divU c2Envelope).2.length = 1 ∧
    (handleUserMessage divU c2Envelope).2.map (fun r => r.videoFilename) = ["a.mp4"] ∧
    (handleUserMessage divU c2Envelope).2.map (fun r => r.isSynthetic) = [false] :=
  ⟨rfl, rfl, rfl, rfl, rfl, rfl⟩

/-- Dropped messages never reach the notification routine: under any of the
three drop conditions the decoded payload is none. -/
theorem decodeCrash_drop (raw : String) (m : Json)
    (hdrop : parseJson raw = none ∨
      (parseJson raw = some m ∧
        (isNewCrashType (m.getField "type") = false ∨ m.getField "data" = none))) :
    decodeCrash raw = none := by
  rcases hdrop with hnone | ⟨hsome, hrest⟩
  · simp [decodeCrash, hnone]
  · rcases hrest with htype | hdata
    · simp [decodeCrash, hsome, htype]
    · simp [decodeCrash, hsome, hdata, truthyOpt]

/-- C3: an inbound message that is not valid JSON, or whose envelope type is
not new_crash, or whose data field is absent, dispatches nothing and leaves
the notification container untouched (no error is surfaced) in both views. -/
theorem invalid_message_is_noop (raw : String) (m : Json) (div divU : List DomNode)
    (hdrop : parseJson raw = none ∨
      (parseJson raw = some m ∧
        (isNewCrashType (m.getField "type") = false ∨ m.getField "data" = none))) :
    handleDashMessage div raw = (div, []) ∧ handleUserMessage divU raw = (divU, []) := by
  have hdec := decodeCrash_drop raw m hdrop
  constructor
  · simp [handleDashMessage, hdec]
  · simp [handleUserMessage, hdec]

/-- C3 witness: invalid JSON and a non-new_crash envelope are both no-ops. -/
theorem invalid_message_is_noop_witness :
    parseJson "not json" = none ∧
    handleDashMessage [] "not json" = ([], []) ∧
    parseJson "\x7b\"type\":\"other\"\x7d" = some (Json.obj [("type", Json.str "other")]) ∧
    isNewCrashType ((Json.obj [("type", Json.str "other")]).getField "type") = false ∧
    handleUserMessage [DomNode.para "s"] "\x7b\"type\":\"other\"\x7d" = ([DomNode.para "s"], []) := by
  refine ⟨rfl, ?_, rfl, rfl, ?_⟩
  · exact (invalid_message_is_noop "not json" Json.null [] [] (Or.inl rfl)).1
  · exact (invalid_message_is_noop "\x7b\"type\":\"other\"\x7d"
      (Json.obj [("type", Json.str "other")]) [] [DomNode.para "s"]
      (Or.inr ⟨rfl, Or.inl rfl⟩)).2

/-- C4 counterexample: the claim says every transport-level loss event —
close as well as error — both emits one synthetic AlertRecord and replaces
the status text.  It is false at the close event: ws.onclose emits no
record at all in either view; and the error handler of the operator view,
fired over an existing status paragraph, leaves that status text in place. -/
theorem transport_loss_both_effects_counterexample :
    ¬ ((wsOnCloseDash []).1.2.length = 1) ∧
    (wsOnCloseDash []).1.2 = [] ∧
    ¬ ((wsOnCloseUser []).1.2.length = 1) ∧
    (wsOnCloseUser []).1.2 = [] ∧
    firstPara? (wsOnErrorDash [DomNode.para "old status"] "2024-01-01T00:00:00Z").1
      = some "old status" := by
  refine ⟨by decide, rfl, by decide, rfl, by decide⟩

/-- C4 amended: the two loss side effects are split between the two loss
handlers.  ws.onerror emits exactly one synthetic AlertRecord
(isSynthetic true) carrying a human-readable failure indicator and does
not write the status paragraph; ws.onclose replaces the notification area
with the disconnect status paragraph, emits no record, and schedules
reconnection after 5000 ms — in both views. -/
theorem transport_loss_effects (div : List DomNode) (now : String) :
    (wsOnErrorDash div now).2.length = 1 ∧
    (wsOnErrorDash div now).2.map (fun r => r.isSynthetic) = [true] ∧
    (wsOnErrorDash div now).2.map (fun r => r.videoFilename) = ["WebSocket Error"] ∧
    (wsOnErrorUser div now).2.length = 1 ∧
    (wsOnErrorUser div now).2.map (fun r => r.isSynthetic) = [true] ∧
    (wsOnErrorUser div now).2.map (fun r => r.videoFilename)
      = ["WebSocket Conn Error to " ++ USER_WEBSOCKET_URL] ∧
    (wsOnCloseDash div).1.1 = [DomNode.para dashCloseText] ∧
    (wsOnCloseDash div).1.2 = [] ∧
    (wsOnCloseDash div).2 = 5000 ∧
    (wsOnCloseUser div).1.1 = [DomNode.para userCloseText] ∧
    (wsOnCloseUser div).1.2 = [] ∧
    (wsOnCloseUser div).2 = 5000 :=
  ⟨rfl, rfl, rfl, rfl, rfl, rfl, rfl, rfl, rfl, rfl, rfl, rfl⟩

theorem step_delays (hv : Handlers) (s s1 : ClientState) (e : WsEvent)
    (hstep : step hv s e = some s1) :
    s1.scheduledDelays = s.scheduledDelays ++ (if isClosedEvt e then [5000] else []) := by
  cases e with
  | opened =>
    simp only [step] at hstep
    split at hstep
    · cases hstep; simp [isClosedEvt]
    · cases hstep
  | message raw =>
    simp only [step] at hstep
    split at hstep
    · cases hstep; simp [isClosedEvt]
    · cases hstep
  | errored now =>
    simp only [step] at hstep
    split at hstep
    · cases hstep; simp [isClosedEvt]
    · cases hstep
  | closed =>
    simp only [step] at hstep
    split at hstep
    · cases hstep; simp [isClosedEvt]
    · cases hstep
  | timerFired =>
    simp only [step] at hstep
    split at hstep
    · cases hstep; simp [isClosedEvt]
    · cases hstep

theorem run_delays (hv : Handlers) :
    ∀ (evs : List WsEvent) (s s2 : ClientState),
      run hv s evs = some s2 →
      s2.scheduledDelays = s.scheduledDelays ++ List.replicate (countClosed evs) 5000 := by
  intro evs
  induction evs with
  | nil =>
    intro s s2 hr
    cases hr
    simp [countClosed]
  | cons e es ih =>
    intro s s2 hr
    simp only [run] at hr
    cases hstep : step hv s e with
    | none => rw [hstep] at hr; cases hr
    | some s1 =>
      rw [hstep] at hr
      rw [ih s1 s2 hr, step_delays hv s s1 e hstep, List.append_assoc]
      congr 1
      cases he : isClosedEvt e with
      | false => simp [countClosed, List.countP_cons, he]
      | true => simp [countClosed, List.countP_cons, he, List.replicate_succ, Nat.add_comm]

theorem run_cycles (hv : Handlers) :
    ∀ (n : Nat) (s : ClientState),
      s.conn = ConnState.CONNECTING → s.timerPending = false →
      ∃ s2, run hv s (cycleEvents n) = some s2 ∧ s2.conn = ConnState.CONNECTING ∧
        s2.timerPending = false ∧
        s2.scheduledDelays = s.scheduledDelays ++ List.replicate n 5000 := by
  intro n
  induction n with
  | zero =>
    intro s hc hp
    exact ⟨s, rfl, hc, hp, by simp⟩
  | succ n ih =>
    intro s hc hp
    have h1 : step hv s WsEvent.closed = some { s with conn := ConnState.CLOSED_PENDING_RETRY, timerPending := true, div := [DomNode.para hv.closeText], scheduledDelays := s.scheduledDelays ++ [5000] } := by
      simp [step, hc]
    have h2 : step hv ({ s with conn := ConnState.CLOSED_PENDING_RETRY, timerPending := true, div := [DomNode.para hv.closeText], scheduledDelays := s.scheduledDelays ++ [5000] }) WsEvent.timerFired = some { s with conn := ConnState.CONNECTING, timerPending := false, div := [DomNode.para hv.closeText], scheduledDelays := s.scheduledDelays ++ [5000] } := by
      simp [step]
    obtain ⟨s2, hrun, hc2, hp2, hd2⟩ := ih ({ s with conn := ConnState.CONNECTING, timerPending := false, div := [DomNode.para hv.closeText], scheduledDelays := s.scheduledDelays ++ [5000] }) rfl rfl
    refine ⟨s2, ?_, hc2, hp2, ?_⟩
    · rw [show cycleEvents (n + 1) = WsEvent.closed :: WsEvent.timerFired :: cycleEvents n from rfl]
      simp only [run, h1, h2]
      exact hrun
    · rw [hd2]
      simp [List.append_assoc, List.replicate_succ]

/-- C5: every channel close schedules exactly one reconnect attempt with the
fixed 5000 ms setTimeout delay — the delay log of any possible trace is one
5000 entry per close event, in both views — and the loss/retry cycle can
repeat any number of times, each cycle ending back in CONNECTING with one
more 5000 ms delay logged. -/
theorem reconnect_after_fixed_delay (evs evsU : List WsEvent) (div0 div1 : List DomNode)
    (s2 sU : ClientState) (n : Nat) :
    (run dashHandlers (initClient div0) evs = some s2 →
      s2.scheduledDelays = List.replicate (countClosed evs) 5000) ∧
    (run userHandlers (initClient div1) evsU = some sU →
      sU.scheduledDelays = List.replicate (countClosed evsU) 5000) ∧
    (∃ sc, run dashHandlers (initClient div0) (cycleEvents n) = some sc ∧
      sc.conn = ConnState.CONNECTING ∧ sc.scheduledDelays = List.replicate n 5000) ∧
    (∃ sc, run userHandlers (initClient div1) (cycleEvents n) = some sc ∧
      sc.conn = ConnState.CONNECTING ∧ sc.scheduledDelays = List.replicate n 5000) := by
  refine ⟨?_, ?_, ?_, ?_⟩
  · intro hr
    simpa using run_delays dashHandlers evs (initClient div0) s2 hr
  · intro hr
    simpa using run_delays userHandlers evsU (initClient div1) sU hr
  · obtain ⟨sc, hrun, hc, _, hd⟩ := run_cycles dashHandlers n (initClient div0) rfl rfl
    exact ⟨sc, hrun, hc, by simpa using hd⟩
  · obtain ⟨sc, hrun, hc, _, hd⟩ := run_cycles userHandlers n (initClient div1) rfl rfl
    exact ⟨sc, hrun, hc, by simpa using hd⟩

/-- C5 witness: a concrete two-loss trace of the operator view logs exactly
two 5000 ms reconnect delays. -/
theorem reconnect_after_fixed_delay_witness :
    run dashHandlers (initClient []) [WsEvent.closed, WsEvent.timerFired, WsEvent.closed]
      = some ⟨ConnState.CLOSED_PENDING_RETRY, true, [DomNode.para dashCloseText], [5000, 5000]⟩ ∧
    (⟨ConnState.CLOSED_PENDING_RETRY, true, [DomNode.para dashCloseText],
        [5000, 5000]⟩ : ClientState).scheduledDelays
      = List.replicate (countClosed [WsEvent.closed, WsEvent.timerFired, WsEvent.closed]) 5000 := by
  refine ⟨by decide, ?_⟩
  exact (reconnect_after_fixed_delay [WsEvent.closed, WsEvent.timerFired, WsEvent.closed]
    [] [] [] ⟨ConnState.CLOSED_PENDING_RETRY, true, [DomNode.para dashCloseText], [5000, 5000]⟩
    ⟨ConnState.CONNECTING, false, [], []⟩ 0).1 (by decide)

theorem step_timer_inv (hv : Handlers) (s s1 : ClientState) (e : WsEvent)
    (hinv : s.timerPending = true → s.conn = ConnState.CLOSED_PENDING_RETRY)
    (hstep : step hv s e = some s1) :
    s1.timerPending = true → s1.conn = ConnState.CLOSED_PENDING_RETRY := by
  cases e with
  | opened =>
    simp only [step] at hstep
    split at hstep
    · cases hstep
      intro hp
      simp_all
    · cases hstep
  | message raw =>
    simp only [step] at hstep
    split at hstep
    · cases hstep
      intro hp
      simp_all
    · cases hstep
  | errored now =>
    simp only [step] at hstep
    split at hstep
    · cases hstep
      intro hp
      rcases hinv hp with h
      simp_all
    · cases hstep
  | closed =>
    simp only [step] at hstep
    split at hstep
    · cases hstep
      intro _
      rfl
    · cases hstep
  | timerFired =>
    simp only [step] at hstep
    split at hstep
    · cases hstep
      intro hp
      cases hp
    · cases hstep

theorem run_timer_inv (hv : Handlers) :
    ∀ (evs : List WsEvent) (s s2 : ClientState),
      (s.timerPending = true → s.conn = ConnState.CLOSED_PENDING_RETRY) →
      run hv s evs = some s2 →
      (s2.timerPending = true → s2.conn = ConnState.CLOSED_PENDING_RETRY) := by
  intro evs
  induction evs with
  | nil =>
    intro s s2 hinv hr
    cases hr
    exact hinv
  | cons e es ih =>
    intro s s2 hinv hr
    simp only [run] at hr
    cases hstep : step hv s e with
    | none => rw [hstep] at hr; cases hr
    | some s1 =>
      rw [hstep] at hr
      exact ih s1 s2 (step_timer_inv hv s s1 e hinv hstep) hr

/-- C6: in every state reachable from page load through any possible event
sequence, a new connection attempt (the reconnect timer firing and calling
connectWebSocket) can only happen when the current socket is neither
CONNECTING nor OPEN — at most one connection attempt is outstanding at a
time, in both views. -/
theorem single_outstanding_connection (evs evsU : List WsEvent) (div0 div1 : List DomNode)
    (s s1 sU sU1 : ClientState) :
    (run dashHandlers (initClient div0) evs = some s →
      step dashHandlers s WsEvent.timerFired = some s1 →
      s.conn ≠ ConnState.CONNECTING ∧ s.conn ≠ ConnState.OPEN) ∧
    (run userHandlers (initClient div1) evsU = some sU →
      step userHandlers sU WsEvent.timerFired = some sU1 →
      sU.conn ≠ ConnState.CONNECTING ∧ sU.conn ≠ ConnState.OPEN) := by
  constructor
  · intro hr hstep
    have hinv := run_timer_inv dashHandlers evs (initClient div0) s (by intro h; cases h) hr
    have hp : s.timerPending = true := by
      by_contra hfalse
      simp only [step, Bool.not_eq_true] at hstep hfalse
      rw [hfalse] at hstep
      simp at hstep
    rw [hinv hp]
    constructor
    · decide
    · decide
  · intro hr hstep
    have hinv := run_timer_inv userHandlers evsU (initClient div1) sU (by intro h; cases h) hr
    have hp : sU.timerPending = true := by
      by_contra hfalse
      simp only [step, Bool.not_eq_true] at hstep hfalse
      rw [hfalse] at hstep
      simp at hstep
    rw [hinv hp]
    constructor
    · decide
    · decide

theorem listStartsWith_of_append :
    ∀ (p q r : List Char), listStartsWith p q = true → listStartsWith p (q ++ r) = true := by
  intro p
  induction p with
  | nil => intro q r _; rfl
  | cons n ns ih =>
    intro q r hq
    cases q with
    | nil => cases hq
    | cons h hs =>
      simp only [listStartsWith, Bool.and_eq_true] at hq ⊢
      exact ⟨hq.1, ih hs r hq.2⟩

theorem historyErrored_of_append (suffix : String) :
    historyErrored { historyStatus := "Error loading history: " ++ suffix,
                     historyRows := [], loadHistoryBtnDisabled := false } = true := by
  simp only [historyErrored, String.data_append]
  exact listStartsWith_of_append _ _ _ (by decide)

/-- C7: when the history endpoint answers with a JSON array body (its wire
contract), fetchCrashHistory reports an inline error exactly when the
response status is non-success; the error message carries the status code
verbatim; a successful empty array is reported as the no-history status,
not as an error; and a successful nonempty array fills the table. -/
theorem history_error_iff_bad_status (ui : HistoryUI) (st : Nat) (xs : List Json) :
    (historyErrored (fetchCrashHistory ui (FetchOutcome.response st (Except.ok (Json.arr xs)))).ui
        = !responseOk st) ∧
    (responseOk st = false →
      (fetchCrashHistory ui (FetchOutcome.response st (Except.ok (Json.arr xs)))).ui.historyStatus
        = "Error loading history: " ++ ("HTTP error! status: " ++ toString st)) ∧
    (responseOk st = true → xs = [] →
      (fetchCrashHistory ui (FetchOutcome.response st (Except.ok (Json.arr xs)))).ui.historyStatus
          = "No crash history found." ∧
      historyErrored (fetchCrashHistory ui (FetchOutcome.response st (Except.ok (Json.arr xs)))).ui
          = false) ∧
    (responseOk st = true → xs ≠ [] →
      (fetchCrashHistory ui (FetchOutcome.response st (Except.ok (Json.arr xs)))).ui.historyStatus
          = "" ∧
      (fetchCrashHistory ui (FetchOutcome.response st (Except.ok (Json.arr xs)))).ui.historyRows
          = xs) := by
  cases hok : responseOk st with
  | false =>
    refine ⟨?_, fun _ => ?_, fun htrue => absurd htrue (by decide),
      fun htrue => absurd htrue (by decide)⟩
    · simp only [fetchCrashHistory, hok, Bool.false_eq_true, if_false, Bool.not_false]
      have h := historyErrored_of_append ("HTTP error! status: " ++ toString st)
      simpa [historyErrored, String.data_append] using h
    · simp only [fetchCrashHistory, hok, Bool.false_eq_true, if_false]
      rw [← String.append_assoc]
      congr 1
  | true =>
    refine ⟨?_, fun hfalse => absurd hfalse (by decide),
      fun _ hxs => ?_, fun _ hxs => ?_⟩
    · cases xs with
      | nil => simp [fetchCrashHistory, hok, jsLengthIsZero, historyErrored, listStartsWith]
      | cons a t => simp [fetchCrashHistory, hok, jsLengthIsZero, historyErrored, listStartsWith]
    · subst hxs
      exact ⟨by simp [fetchCrashHistory, hok, jsLengthIsZero],
             by simp [fetchCrashHistory, hok, jsLengthIsZero, historyErrored, listStartsWith]⟩
    · cases xs with
      | nil => exact absurd rfl hxs
      | cons a t =>
        exact ⟨by simp [fetchCrashHistory, hok, jsLengthIsZero],
               by simp [fetchCrashHistory, hok, jsLengthIsZero]⟩

/-- C7 witness: an HTTP 500 with an empty array body yields the inline
error message carrying 500; an HTTP 200 with an empty array body yields
the no-history status and no error. -/
theorem history_error_iff_bad_status_witness :
    responseOk 500 = false ∧
    (fetchCrashHistory ⟨"", [], false⟩ (FetchOutcome.response 500 (Except.ok (Json.arr [])))).ui.historyStatus
      = "Error loading history: " ++ ("HTTP error! status: " ++ toString 500) ∧
    responseOk 200 = true ∧
    (fetchCrashHistory ⟨"", [], false⟩ (FetchOutcome.response 200 (Except.ok (Json.arr [])))).ui.historyStatus
      = "No crash history found." := by
  refine ⟨by decide, ?_, by decide, ?_⟩
  · exact (history_error_iff_bad_status ⟨"", [], false⟩ 500 []).2.1 (by decide)
  · exact ((history_error_iff_bad_status ⟨"", [], false⟩ 200 []).2.2.1 (by decide) rfl).1

/-- C10: fetchCrashHistory clears the rendered history before the request
is issued — its outcome is entirely independent of the prior UI state —
and on every erroring outcome the rendered history set ends up empty, not
preserved. -/
theorem history_cleared_before_fetch (ui ui2 : HistoryUI) (outcome : FetchOutcome) :
    fetchCrashHistory ui outcome = fetchCrashHistory ui2 outcome ∧
    (historyErrored (fetchCrashHistory ui outcome).ui = true →
      (fetchCrashHistory ui outcome).ui.historyRows = []) := by
  refine ⟨rfl, ?_⟩
  intro herr
  cases outcome with
  | networkError msg => rfl
  | response st body =>
    cases hok : responseOk st with
    | false => simp [fetchCrashHistory, hok]
    | true =>
      cases body with
      | error e => simp [fetchCrashHistory, hok]
      | ok j =>
        cases hz : jsLengthIsZero j with
        | true => simp [fetchCrashHistory, hok, hz]
        | false =>
          cases j with
          | arr xs =>
            simp only [fetchCrashHistory, hok, hz, if_true, Bool.false_eq_true, if_false] at herr
            simp [historyErrored, listStartsWith] at herr
          | null => simp [fetchCrashHistory, hok, hz]
          | bool b => simp [fetchCrashHistory, hok, hz]
          | num l => simp [fetchCrashHistory, hok, hz]
          | str s => simp [fetchCrashHistory, hok, hz]
          | obj fs => simp [fetchCrashHistory, hok, hz]

/-- C10 witness: a failing fetch leaves the table empty even when rows were
rendered before the call. -/
theorem history_cleared_before_fetch_witness :
    historyErrored (fetchCrashHistory ⟨"old", [Json.null], false⟩
        (FetchOutcome.networkError "Failed to fetch")).ui = true ∧
    (fetchCrashHistory ⟨"old", [Json.null], false⟩
        (FetchOutcome.networkError "Failed to fetch")).ui.historyRows = [] := by
  refine ⟨by decide, ?_⟩
  exact (history_cleared_before_fetch ⟨"old", [Json.null], false⟩ ⟨"", [], false⟩
    (FetchOutcome.networkError "Failed to fetch")).2 (by decide)

theorem fetchWeather_default_status (o : FetchOutcome) (wui : WeatherUI) :
    "Using default location for weather." ∈ (fetchWeatherAndSpeed none o wui).statusLog := by
  cases o with
  | networkError msg => simp [fetchWeatherAndSpeed]
  | response st body =>
    cases hok : responseOk st with
    | false => simp [fetchWeatherAndSpeed, hok]
    | true =>
      cases body with
      | ok j => simp [fetchWeatherAndSpeed, hok]
      | error e => simp [fetchWeatherAndSpeed, hok]

theorem fetchWeather_btnLog (coords : Option (String × String)) (o : FetchOutcome)
    (wui : WeatherUI) : (fetchWeatherAndSpeed coords o wui).btnLog = [true, false] := rfl

theorem fetchWeather_btnEnabled (coords : Option (String × String)) (o : FetchOutcome)
    (wui : WeatherUI) : (fetchWeatherAndSpeed coords o wui).ui.refreshBtnDisabled = false := rfl

theorem fetchWeather_calls (coords : Option (String × String)) (o : FetchOutcome)
    (wui : WeatherUI) : (fetchWeatherAndSpeed coords o wui).fetchCalls = [weatherUrl coords] := rfl

theorem requestLocation_button (geo : GeoEnv) (o : FetchOutcome) (wui : WeatherUI) :
    (requestLocationAndFetchWeather geo o wui).btnLog = [true, true, false] ∧
    (requestLocationAndFetchWeather geo o wui).ui.refreshBtnDisabled = false := by
  obtain ⟨pa, pr, por⟩ := geo
  cases pa with
  | false => exact ⟨rfl, rfl⟩
  | true =>
    cases pr with
    | error e => exact ⟨rfl, rfl⟩
    | ok ps =>
      cases hg : grantedStatus ps with
      | false =>
        refine ⟨?_, ?_⟩ <;>
          simp [requestLocationAndFetchWeather, hg, fetchWeather_btnLog, fetchWeather_btnEnabled]
      | true =>
        cases por with
        | ok c =>
          refine ⟨?_, ?_⟩ <;>
            simp [requestLocationAndFetchWeather, hg, fetchWeather_btnLog, fetchWeather_btnEnabled]
        | error e =>
          refine ⟨?_, ?_⟩ <;>
            simp [requestLocationAndFetchWeather, hg, fetchWeather_btnLog, fetchWeather_btnEnabled]

/-- C8: the history fetch and the advisory chain each disable their trigger
control first and re-enable it as the last thing they do, on every possible
outcome: the assignment log to the disabled flag of the control starts with true,
ends with false, and the final state has the control enabled. -/
theorem trigger_control_never_stuck (ui : HistoryUI) (outcome : FetchOutcome)
    (geo : GeoEnv) (wOutcome : FetchOutcome) (wui : WeatherUI)
    (coords : Option (String × String)) :
    (fetchCrashHistory ui outcome).btnLog = [true, false] ∧
    (fetchCrashHistory ui outcome).btnLog.head? = some true ∧
    (fetchCrashHistory ui outcome).btnLog.getLast? = some false ∧
    (fetchCrashHistory ui outcome).ui.loadHistoryBtnDisabled = false ∧
    (fetchWeatherAndSpeed coords wOutcome wui).btnLog = [true, false] ∧
    (fetchWeatherAndSpeed coords wOutcome wui).ui.refreshBtnDisabled = false ∧
    (requestLocationAndFetchWeather geo wOutcome wui).btnLog = [true, true, false] ∧
    (requestLocationAndFetchWeather geo wOutcome wui).btnLog.head? = some true ∧
    (requestLocationAndFetchWeather geo wOutcome wui).btnLog.getLast? = some false ∧
    (requestLocationAndFetchWeather geo wOutcome wui).ui.refreshBtnDisabled = false := by
  obtain ⟨hb, hd⟩ := requestLocation_button geo wOutcome wui
  exact ⟨rfl, rfl, rfl, rfl, rfl, rfl, hb, by rw [hb]; rfl, by rw [hb]; rfl, hd⟩

/-- C9: every invocation of the advisory chain calls the advisory endpoint
exactly once and never aborts: on the fully successful permission/position
path the URL carries the acquired coordinates as lat/lon query parameters,
and on every failure path the URL carries no location parameters and the
status log shows the default-location notice. -/
theorem advisory_single_call (geo : GeoEnv) (o : FetchOutcome) (wui : WeatherUI) :
    (requestLocationAndFetchWeather geo o wui).fetchCalls = [weatherUrl (usedCoords geo)] ∧
    (requestLocationAndFetchWeather geo o wui).fetchCalls.length = 1 ∧
    (usedCoords geo = none →
      "Using default location for weather."
        ∈ (requestLocationAndFetchWeather geo o wui).statusLog) := by
  obtain ⟨pa, pr, por⟩ := geo
  cases pa with
  | false =>
    refine ⟨rfl, rfl, fun _ => ?_⟩
    exact List.mem_append_right _ (fetchWeather_default_status o wui)
  | true =>
    cases pr with
    | error e =>
      refine ⟨rfl, rfl, fun _ => ?_⟩
      exact List.mem_append_right _ (fetchWeather_default_status o wui)
    | ok ps =>
      cases hg : grantedStatus ps with
      | false =>
        refine ⟨?_, ?_, fun _ => ?_⟩
        · simp [requestLocationAndFetchWeather, usedCoords, hg, fetchWeather_calls]
        · simp [requestLocationAndFetchWeather, hg, fetchWeather_calls]
        · simp only [requestLocationAndFetchWeather, hg, Bool.false_eq_true, if_false]
          exact List.mem_append_right _ (fetchWeather_default_status o wui)
      | true =>
        cases por with
        | ok c =>
          refine ⟨?_, ?_, fun hnone => ?_⟩
          · simp [requestLocationAndFetchWeather, usedCoords, hg, fetchWeather_calls]
          · simp [requestLocationAndFetchWeather, hg, fetchWeather_calls]
          · simp [usedCoords, hg] at hnone
        | error e =>
          refine ⟨?_, ?_, fun _ => ?_⟩
          · simp [requestLocationAndFetchWeather, usedCoords, hg, fetchWeather_calls]
          · simp [requestLocationAndFetchWeather, hg, fetchWeather_calls]
          · simp only [requestLocationAndFetchWeather, hg, if_true]
            exact List.mem_append_right _ (fetchWeather_default_status o wui)

/-- C9 witness: with permission granted and position (37.0, -122.0) the
advisory endpoint is called with lat=37.0&lon=-122.0; with permission
denied it is called with no location parameters and the default-location
notice appears. -/
theorem advisory_single_call_witness :
    usedCoords ⟨true, Except.ok "granted", Except.ok ("37.0", "-122.0")⟩ = some ("37.0", "-122.0") ∧
    (requestLocationAndFetchWeather ⟨true, Except.ok "granted", Except.ok ("37.0", "-122.0")⟩
        (FetchOutcome.networkError "x") ⟨"", "", false⟩).fetchCalls
      = ["https://c813-50-234-34-194.ngrok-free.app/api/weather_conditions?lat=37.0&lon=-122.0"] ∧
    usedCoords ⟨true, Except.ok "denied", Except.ok ("37.0", "-122.0")⟩ = none ∧
    "Using default location for weather."
      ∈ (requestLocationAndFetchWeather ⟨true, Except.ok "denied", Except.ok ("37.0", "-122.0")⟩
          (FetchOutcome.networkError "x") ⟨"", "", false⟩).statusLog := by
  refine ⟨rfl, ?_, rfl, ?_⟩
  · exact ((advisory_single_call ⟨true, Except.ok "granted", Except.ok ("37.0", "-122.0")⟩
      (FetchOutcome.networkError "x") ⟨"", "", false⟩).1).trans (by decide)
  · exact (advisory_single_call ⟨true, Except.ok "denied", Except.ok ("37.0", "-122.0")⟩
      (FetchOutcome.networkError "x") ⟨"", "", false⟩).2.2 rfl

/-- C6 witness: after one close, the reconnect timer fires from
CLOSED_PENDING_RETRY, not from CONNECTING or OPEN. -/
theorem single_outstanding_connection_witness :
    run dashHandlers (initClient []) [WsEvent.closed]
      = some ⟨ConnState.CLOSED_PENDING_RETRY, true, [DomNode.para dashCloseText], [5000]⟩ ∧
    (⟨ConnState.CLOSED_PENDING_RETRY, true, [DomNode.para dashCloseText],
        [5000]⟩ : ClientState).conn ≠ ConnState.CONNECTING := by
  refine ⟨by decide, ?_⟩
  exact ((single_outstanding_connection [WsEvent.closed] [] [] []
    ⟨ConnState.CLOSED_PENDING_RETRY, true, [DomNode.para dashCloseText], [5000]⟩
    ⟨ConnState.CONNECTING, false, [DomNode.para dashCloseText], [5000]⟩
    ⟨ConnState.CONNECTING, false, [], []⟩ ⟨ConnState.CONNECTING, false, [], []⟩).1
    (by decide) (by decide)).1

end CrashApp
